import Mathlib

/-!
Verification of the inventory-tracking backend's Movement Engine
(`InventoryController.createStockMovement` and
`InventoryController.updateInventory`) against its specification.

The controller code is embedded shallowly: the PostgreSQL tables become
lists of records, a `BEGIN ... COMMIT/ROLLBACK` transaction becomes an
all-or-nothing `Except` result (an error leaves the caller's state
untouched, exactly as `ROLLBACK` does), and JavaScript truthiness tests
on request fields are made explicit.
-/

namespace Inventory

/-- A row of `product_catalog` (only the columns the movement engine
reads: `id` and `base_price`). Prices are exact decimals in the schema
(`DECIMAL(10,2)`); we model them as integer cent amounts. -/
structure Product where
  id : Nat
  base_price : Int
deriving DecidableEq, Repr

/-- A row of `store_inventory`: one mutable aggregate per
(store, product) pair. `price` is nullable in the schema. -/
structure InvRow where
  id : Nat
  store_id : Nat
  product_id : Nat
  quantity : Int
  price : Option Int
deriving DecidableEq, Repr

/-- A row of `stock_movement` (the append-only ledger). The schema
constrains `type` by
`CHECK (type IN ('STOCK_IN', 'SALE', 'REMOVAL', 'TRANSFER'))`;
we keep it as a string exactly as the code stores it. -/
structure MovementRecord where
  id : Nat
  store_id : Nat
  product_id : Nat
  quantity : Int
  type : String
  reference_id : Option String
  notes : Option String
deriving DecidableEq, Repr

/-- The request body of `POST` create-stock-movement, as destructured at
the top of `createStockMovement`. Fields are optional because the JSON
body may omit them; the code tests them with JavaScript truthiness. -/
structure MovementRequest where
  storeId : Option Nat
  productId : Option Nat
  quantity : Option Int
  type : Option String
  referenceId : Option String
  notes : Option String
  destinationStoreId : Option Nat
deriving DecidableEq, Repr

/-- The error responses the controller can send for a movement or
inventory-update request: HTTP 400 validation errors, HTTP 404
not-found errors, and the HTTP 400 insufficient-stock error which
carries `available` and `requested`. -/
inductive ApiError where
  | validation : String → ApiError
  | notFound : String → ApiError
  | insufficientStock : (available : Int) → (requested : Int) → ApiError
deriving DecidableEq, Repr

/-- The durable state: the `store` and `product_catalog` tables (only
what the engine reads), the `store_inventory` aggregate table, the
`stock_movement` ledger, and the `SERIAL` counters that assign ids. -/
structure DB where
  stores : List Nat
  products : List Product
  inventory : List InvRow
  ledger : List MovementRecord
  nextMovementId : Nat
  nextInventoryId : Nat
deriving DecidableEq, Repr

/-- Initial database: stores and products exist, no inventory rows, an
empty ledger. -/
def DB.init (stores : List Nat) (products : List Product) : DB :=
  { stores := stores, products := products, inventory := [], ledger := [],
    nextMovementId := 1, nextInventoryId := 1 }

/-- JavaScript truthiness of an optional numeric id (`!storeId` is true
for `undefined`, `null` and `0`). -/
def truthyNat : Option Nat → Bool
  | none => false
  | some n => n != 0

/-- JavaScript truthiness of an optional integer (`!quantity` is true
for `undefined`, `null` and `0`). -/
def truthyInt : Option Int → Bool
  | none => false
  | some n => n != 0

/-- JavaScript truthiness of an optional string (`!type` is true for
`undefined`, `null` and the empty string). -/
def truthyStr : Option String → Bool
  | none => false
  | some s => s != ""

/-- JavaScript `a || b` on a nullable number `a` (falsy: null and 0). -/
def jsOrInt : Option Int → Int → Int
  | none, b => b
  | some a, b => if a == 0 then b else a

/-- JavaScript `a || b` on a nullable string `a` (falsy: null and ""). -/
def jsOrStr : Option String → String → String
  | none, b => b
  | some a, b => if a == "" then b else a

/-- `SELECT * FROM store_inventory WHERE store_id = s AND product_id = p`
(the pair is `UNIQUE` in the schema; `find?` returns the row if any). -/
def findRow (inv : List InvRow) (s p : Nat) : Option InvRow :=
  inv.find? (fun r => r.store_id == s && r.product_id == p)

/-- The current aggregate quantity of a (store, product) pair: the
row's quantity, or 0 when the pair has no row yet. -/
def qtyOf (inv : List InvRow) (s p : Nat) : Int :=
  match findRow inv s p with
  | some r => r.quantity
  | none => 0

/-- `UPDATE store_inventory SET quantity = q WHERE store_id = s AND
product_id = p`. -/
def setQty (inv : List InvRow) (s p : Nat) (q : Int) : List InvRow :=
  inv.map (fun r =>
    if r.store_id == s && r.product_id == p then { r with quantity := q } else r)

/-- Result of the select-or-insert step on `store_inventory`. -/
structure GOCResult where
  inventory : List InvRow
  row : InvRow
  nextInventoryId : Nat
deriving DecidableEq, Repr

/-- The controller's get-or-create step: select the (store, product)
row; if absent, `INSERT ... (store_id, product_id, quantity, price)
VALUES (s, p, 0, price)` and use the new row. -/
def getOrCreate (inv : List InvRow) (nextInvId : Nat) (s p : Nat)
    (price : Option Int) : GOCResult :=
  match findRow inv s p with
  | some r => ⟨inv, r, nextInvId⟩
  | none =>
    let newRow : InvRow :=
      { id := nextInvId, store_id := s, product_id := p, quantity := 0, price := price }
    ⟨inv ++ [newRow], newRow, nextInvId + 1⟩

/-- The movement types the request may carry
(`const validTypes = ['STOCK_IN', 'SALE', 'REMOVAL', 'TRANSFER']`). -/
def validTypes : List String := ["STOCK_IN", "SALE", "REMOVAL", "TRANSFER"]

/-- The transaction body of `createStockMovement` (everything between
`BEGIN` and `COMMIT`). An `Except.error` result models `ROLLBACK`: the
caller's state is unchanged. Returns the new state, the source-leg
movement record, and `newSourceQuantity` as reported in the response. -/
def movementTxn (storeId productId : Nat) (quantity : Int) (type : String)
    (referenceId notes : Option String) (destinationStoreId : Option Nat)
    (db : DB) : Except ApiError (DB × MovementRecord × Int) :=
  match db.products.find? (fun pr => pr.id == productId) with
  | none => .error (.notFound "Product not found")
  | some product =>
    if !(db.stores.contains storeId) then
      .error (.notFound "Store not found")
    else if type == "TRANSFER" && !(db.stores.contains (destinationStoreId.getD 0)) then
      .error (.notFound "Destination store not found")
    else
      -- Get or create inventory record for source store
      let src := getOrCreate db.inventory db.nextInventoryId storeId productId
        (some product.base_price)
      let currentQuantity := src.row.quantity
      -- For outgoing movements, check if enough stock
      if (type == "SALE" || type == "REMOVAL" || type == "TRANSFER")
          && currentQuantity < quantity then
        .error (.insufficientStock currentQuantity quantity)
      else
        -- Create stock movement record
        let movement : MovementRecord :=
          { id := db.nextMovementId, store_id := storeId, product_id := productId,
            quantity := quantity, type := type, reference_id := referenceId,
            notes := notes }
        -- Update source store inventory
        let newSourceQuantity :=
          if type == "STOCK_IN" then currentQuantity + quantity
          else currentQuantity - quantity
        let inv2 := setQty src.inventory storeId productId newSourceQuantity
        if type == "TRANSFER" then
          -- Get or create inventory record for destination store
          let destId := destinationStoreId.getD 0
          let dst := getOrCreate inv2 src.nextInventoryId destId productId
            (some (jsOrInt src.row.price product.base_price))
          let destQuantity := dst.row.quantity
          -- Update destination quantity
          let inv4 := setQty dst.inventory destId productId (destQuantity + quantity)
          -- Create complementary movement record for destination
          let inMovement : MovementRecord :=
            { id := db.nextMovementId + 1, store_id := destId, product_id := productId,
              quantity := quantity, type := "STOCK_IN",
              reference_id := some (jsOrStr referenceId (toString movement.id)),
              notes := some ("Transfer from Store #" ++ toString storeId ++ " - "
                ++ jsOrStr notes "") }
          .ok ({ db with inventory := inv4,
                         ledger := db.ledger ++ [movement] ++ [inMovement],
                         nextMovementId := db.nextMovementId + 2,
                         nextInventoryId := dst.nextInventoryId },
               movement, newSourceQuantity)
        else
          .ok ({ db with inventory := inv2,
                         ledger := db.ledger ++ [movement],
                         nextMovementId := db.nextMovementId + 1,
                         nextInventoryId := src.nextInventoryId },
               movement, newSourceQuantity)

/-- `InventoryController.createStockMovement`: validation (performed
before the transaction opens), then the transaction body. -/
def createStockMovement (req : MovementRequest) (db : DB) :
    Except ApiError (DB × MovementRecord × Int) :=
  -- Validate required fields
  if !truthyNat req.storeId || !truthyNat req.productId
      || !truthyInt req.quantity || !truthyStr req.type then
    .error (.validation
      "Store ID, product ID, quantity, and movement type are required")
  else
    let storeId := req.storeId.getD 0
    let productId := req.productId.getD 0
    let quantity := req.quantity.getD 0
    let type := req.type.getD ""
    -- Validate movement type
    if !(validTypes.contains type) then
      .error (.validation
        "Movement type must be one of: STOCK_IN, SALE, REMOVAL, TRANSFER")
    -- For transfers, validate destination store
    else if type == "TRANSFER" && !truthyNat req.destinationStoreId then
      .error (.validation "Destination store ID is required for transfers")
    -- Validate quantity
    else if quantity ≤ 0 then
      .error (.validation "Quantity must be greater than zero")
    else
      movementTxn storeId productId quantity type req.referenceId req.notes
        req.destinationStoreId db

/-- `InventoryController.updateInventory`: manual adjustment of one
`store_inventory` row addressed by its id. The body's `quantity`
distinguishes three JavaScript states the code treats differently:
absent/undefined (`none`), JSON null (`some none`) and a number
(`some (some q)`). For `price` null and undefined behave identically
(both leave the column unchanged through COALESCE), so a single
`Option Int` is faithful there. `userName` is `req.user?.name`.
Returns the new state and the updated row. -/
def updateInventory (inventoryId : Nat) (quantity : Option (Option Int))
    (price : Option Int) (userName : Option String) (db : DB) :
    Except ApiError (DB × InvRow) :=
  match db.inventory.find? (fun r => r.id == inventoryId) with
  | none => .error (.notFound "Inventory record not found")
  | some currentInventory =>
    -- UPDATE ... SET quantity = COALESCE($1, quantity), price = COALESCE($2, price)
    -- where $1 = quantity !== undefined ? quantity : currentInventory.quantity.
    -- A null body quantity passes NULL, which COALESCE ignores, so the
    -- column keeps its value in the null case just as in the undefined case.
    let newQty := match quantity with
      | some (some q) => q
      | some none => currentInventory.quantity
      | none => currentInventory.quantity
    let newPrice := match price with
      | some pr => some pr
      | none => currentInventory.price
    let inv' := db.inventory.map (fun r =>
      if r.id == inventoryId then { r with quantity := newQty, price := newPrice }
      else r)
    let updatedRow : InvRow :=
      { currentInventory with quantity := newQty, price := newPrice }
    -- if (quantity !== undefined && quantity !== currentInventory.quantity):
    -- a null quantity is !== undefined and !== any number, so it enters
    -- this branch even though the row was left unchanged.
    match quantity with
    | some qv =>
      if (match qv with
          | some q => q != currentInventory.quantity
          | none => true) then
        -- changeAmount = quantity - currentInventory.quantity;
        -- JavaScript coerces null to 0 in the subtraction.
        let changeAmount := qv.getD 0 - currentInventory.quantity
        let movementType := if changeAmount > 0 then "STOCK_IN" else "REMOVAL"
        let rec0 : MovementRecord :=
          { id := db.nextMovementId,
            store_id := currentInventory.store_id,
            product_id := currentInventory.product_id,
            quantity := |changeAmount|,
            type := movementType,
            reference_id := none,
            notes := some ("Manual inventory adjustment by "
              ++ jsOrStr userName "system") }
        .ok ({ db with inventory := inv',
                       ledger := db.ledger ++ [rec0],
                       nextMovementId := db.nextMovementId + 1 },
             updatedRow)
      else
        .ok ({ db with inventory := inv' }, updatedRow)
    | none =>
      .ok ({ db with inventory := inv' }, updatedRow)

/-- Fold a list of movement requests over the state, keeping the state
of committed (successful) operations and discarding rolled-back ones. -/
def applyReqs (db : DB) (reqs : List MovementRequest) : DB :=
  reqs.foldl (fun d r =>
    match createStockMovement r d with
    | .ok (d', _, _) => d'
    | .error _ => d) db

/-- The signed contribution of a ledger record to its pair's quantity,
as the code actually maintains it: `STOCK_IN` adds the quantity, every
other type the code writes (`SALE`, `REMOVAL`, `TRANSFER`) subtracts
it. This mirrors `newSourceQuantity = currentQuantity ± quantity` in
`createStockMovement`. -/
def signedCode (r : MovementRecord) : Int :=
  if r.type == "STOCK_IN" then r.quantity
  else if r.type == "SALE" || r.type == "REMOVAL" || r.type == "TRANSFER" then
    -r.quantity
  else 0

/-- Modelled from the spec: the signed contribution exactly as §3 of
the specification words it — `STOCK_IN` and `TRANSFER_IN` positive,
`SALE`, `REMOVAL` and `TRANSFER_OUT` negative. The spec assigns no
sign to any other type; a record outside its five types (such as the
`TRANSFER` type the code actually stores) contributes nothing. -/
def signedSpec (r : MovementRecord) : Int :=
  if r.type == "STOCK_IN" || r.type == "TRANSFER_IN" then r.quantity
  else if r.type == "SALE" || r.type == "REMOVAL" || r.type == "TRANSFER_OUT" then
    -r.quantity
  else 0

/-- The signed sum of all ledger records for one (store, product)
pair, under a given signing convention `f`. -/
def pairSum (f : MovementRecord → Int) (l : List MovementRecord) (s p : Nat) : Int :=
  ((l.filter (fun r => r.store_id == s && r.product_id == p)).map f).sum

/-- The ledger-equals-sum invariant together with non-negativity, under
the code's signing convention. -/
def MovOk (db : DB) : Prop :=
  ∀ s p, qtyOf db.inventory s p = pairSum signedCode db.ledger s p
    ∧ 0 ≤ qtyOf db.inventory s p

/-! ## Concrete example states (spec scenarios A and D) -/

/-- Two stores (1 and 2) and one product (id 7, base price 100), with
no inventory and an empty ledger. -/
def exampleDB : DB := DB.init [1, 2] [⟨7, 100⟩]

/-- `STOCK_IN` of 30 units of product 7 into store 1. -/
def stockInReq : MovementRequest :=
  ⟨some 1, some 7, some 30, some "STOCK_IN", none, none, none⟩

/-- `TRANSFER` of 10 units of product 7 from store 1 to store 2, with
no caller-supplied reference id. -/
def transferReq : MovementRequest :=
  ⟨some 1, some 7, some 10, some "TRANSFER", none, none, some 2⟩

/-- `TRANSFER` of 10 units of product 7 from store 1 to store 1 itself
(the destination equals the source). -/
def selfTransferReq : MovementRequest :=
  ⟨some 1, some 7, some 10, some "TRANSFER", none, none, some 1⟩

/-- The state after stocking 30 units into store 1. -/
def exampleDB1 : DB := applyReqs exampleDB [stockInReq]

/-- The state after stocking 30 units into store 1 and then
transferring 10 of them to store 2. -/
def exampleDB2 : DB := applyReqs exampleDB [stockInReq, transferReq]

/-- Spec Scenario C starting state: one store, product 7 stocked with
3 units. -/
def scenarioCDB : DB :=
  applyReqs (DB.init [1] [⟨7, 100⟩])
    [⟨some 1, some 7, some 3, some "STOCK_IN", none, none, none⟩]

/-! ## List lemmas -/

theorem find?_map_congr {α : Type} (g : α → α) (p : α → Bool)
    (hg : ∀ r, p (g r) = p r) :
    ∀ l : List α, (l.map g).find? p = (l.find? p).map g := by
  intro l
  induction l with
  | nil => rfl
  | cons a t ih =>
    by_cases h : p a = true
    · rw [List.map_cons, List.find?_cons_of_pos _ (by rw [hg]; exact h),
        List.find?_cons_of_pos _ h]
      rfl
    · rw [List.map_cons, List.find?_cons_of_neg _ (by rw [hg]; simpa using h),
        List.find?_cons_of_neg _ (by simpa using h), ih]

theorem findRow_setQty (inv : List InvRow) (s p s' p' : Nat) (q : Int) :
    findRow (setQty inv s p q) s' p' =
      (findRow inv s' p').map (fun r =>
        if r.store_id == s && r.product_id == p then { r with quantity := q }
        else r) := by
  unfold findRow setQty
  apply find?_map_congr
  intro r
  by_cases h : (r.store_id == s && r.product_id == p) = true
  · rw [if_pos h]
  · rw [if_neg h]

theorem qtyOf_setQty_self (inv : List InvRow) (s p : Nat) (q : Int)
    (h : (findRow inv s p).isSome) : qtyOf (setQty inv s p q) s p = q := by
  unfold qtyOf
  rw [findRow_setQty]
  obtain ⟨r, hr⟩ := Option.isSome_iff_exists.mp h
  have hr' : List.find? (fun x => x.store_id == s && x.product_id == p) inv
      = some r := hr
  have hpred : (r.store_id == s && r.product_id == p) = true := by
    simpa using List.find?_some hr'
  rw [hr]
  show (if r.store_id == s && r.product_id == p then { r with quantity := q }
    else r).quantity = q
  rw [if_pos hpred]

theorem qtyOf_setQty_other (inv : List InvRow) (s p s' p' : Nat) (q : Int)
    (h : ¬(s' = s ∧ p' = p)) :
    qtyOf (setQty inv s p q) s' p' = qtyOf inv s' p' := by
  unfold qtyOf
  rw [findRow_setQty]
  cases hr : findRow inv s' p' with
  | none => rfl
  | some r =>
    have hr' : List.find? (fun x => x.store_id == s' && x.product_id == p') inv
        = some r := hr
    have hpred : (r.store_id == s' && r.product_id == p') = true := by
      simpa using List.find?_some hr'
    simp only [Bool.and_eq_true, beq_iff_eq] at hpred
    have hcond : ¬((r.store_id == s && r.product_id == p) = true) := by
      intro hc
      simp only [Bool.and_eq_true, beq_iff_eq] at hc
      exact h ⟨hpred.1 ▸ hc.1, hpred.2 ▸ hc.2⟩
    show (if r.store_id == s && r.product_id == p then { r with quantity := q }
      else r).quantity = r.quantity
    rw [if_neg hcond]

theorem findRow_append_one (inv : List InvRow) (y : InvRow) (s p : Nat) :
    findRow (inv ++ [y]) s p =
      match findRow inv s p with
      | some x => some x
      | none => if y.store_id == s && y.product_id == p then some y else none := by
  unfold findRow
  rw [List.find?_append, List.find?_singleton]
  cases h : List.find? (fun r => r.store_id == s && r.product_id == p) inv with
  | some x => rfl
  | none => rfl

/-- The row update performed by `updateInventory` (changing quantity
and price of the row with a given id) does not change which row a
(store, product) lookup finds. -/
theorem findRow_map_id_update (inv : List InvRow) (iid : Nat) (nq : Int)
    (np : Option Int) (s p : Nat) :
    findRow (inv.map (fun r =>
        if r.id == iid then { r with quantity := nq, price := np } else r))
      s p
      = (findRow inv s p).map (fun r =>
        if r.id == iid then { r with quantity := nq, price := np } else r) := by
  unfold findRow
  apply find?_map_congr
  intro r
  by_cases hx : (r.id == iid) = true
  · rw [if_pos hx]
  · rw [if_neg hx]

/-- The same update commutes with a lookup by row id. -/
theorem find?_id_map_id_update (inv : List InvRow) (iid : Nat) (nq : Int)
    (np : Option Int) :
    (inv.map (fun r =>
        if r.id == iid then { r with quantity := nq, price := np } else r)).find?
      (fun r => r.id == iid)
      = (inv.find? (fun r => r.id == iid)).map (fun r =>
        if r.id == iid then { r with quantity := nq, price := np } else r) := by
  apply find?_map_congr
  intro r
  by_cases hx : (r.id == iid) = true
  · rw [if_pos hx]
  · rw [if_neg hx]

/-! ## Lemmas about the get-or-create step -/

theorem goc_row_qty (inv : List InvRow) (n s p : Nat) (pr : Option Int) :
    (getOrCreate inv n s p pr).row.quantity = qtyOf inv s p := by
  unfold getOrCreate qtyOf
  cases h : findRow inv s p <;> simp [h]

theorem goc_findRow (inv : List InvRow) (n s p : Nat) (pr : Option Int) :
    findRow (getOrCreate inv n s p pr).inventory s p =
      some (getOrCreate inv n s p pr).row := by
  simp only [getOrCreate]
  cases h : findRow inv s p with
  | some r => simpa using h
  | none =>
    simp only
    rw [findRow_append_one, h]
    simp

theorem goc_qtyOf (inv : List InvRow) (n s p : Nat) (pr : Option Int)
    (s' p' : Nat) :
    qtyOf (getOrCreate inv n s p pr).inventory s' p' = qtyOf inv s' p' := by
  simp only [getOrCreate]
  cases h : findRow inv s p with
  | some r => simp
  | none =>
    simp only [qtyOf]
    rw [findRow_append_one]
    cases h' : findRow inv s' p' with
    | some x => simp
    | none =>
      simp only
      by_cases hm : (s == s' && p == p') = true
      · simp only [Bool.and_eq_true, beq_iff_eq] at hm
        simp [hm.1, hm.2]
      · rw [if_neg (by simpa using hm)]

/-! ## Lemmas about pair sums -/

theorem pairSum_nil (f : MovementRecord → Int) (s p : Nat) :
    pairSum f [] s p = 0 := rfl

theorem pairSum_append (f : MovementRecord → Int) (l : List MovementRecord)
    (r : MovementRecord) (s p : Nat) :
    pairSum f (l ++ [r]) s p =
      pairSum f l s p
        + (if r.store_id == s && r.product_id == p then f r else 0) := by
  unfold pairSum
  rw [List.filter_append]
  by_cases h : (r.store_id == s && r.product_id == p) = true
  · simp [h]
  · simp [h]

/-! ## Preservation of the ledger-equals-sum invariant -/

/-- One read-modify-write step on a single (store, product) pair,
paired with appending the matching ledger record, preserves the
invariant when the new quantity is the old one plus the record's
signed contribution and stays non-negative. -/
theorem qty_sum_step (inv : List InvRow) (led : List MovementRecord)
    (hIH : ∀ s' p', qtyOf inv s' p' = pairSum signedCode led s' p'
      ∧ 0 ≤ qtyOf inv s' p')
    (s p : Nat) (hsome : (findRow inv s p).isSome)
    (rec1 : MovementRecord) (hrs : rec1.store_id = s) (hrp : rec1.product_id = p)
    (newq : Int) (hnewq : newq = qtyOf inv s p + signedCode rec1)
    (hpos : 0 ≤ newq) :
    ∀ s' p', qtyOf (setQty inv s p newq) s' p'
        = pairSum signedCode (led ++ [rec1]) s' p'
      ∧ 0 ≤ qtyOf (setQty inv s p newq) s' p' := by
  intro s' p'
  rw [pairSum_append]
  by_cases hsp : s' = s ∧ p' = p
  · obtain ⟨hs, hp⟩ := hsp
    subst hs; subst hp
    rw [qtyOf_setQty_self inv s' p' newq hsome]
    rw [if_pos (by simp [hrs, hrp])]
    exact ⟨by rw [hnewq, (hIH s' p').1], hpos⟩
  · rw [qtyOf_setQty_other inv s p s' p' newq hsp]
    have hc : ¬((rec1.store_id == s' && rec1.product_id == p') = true) := by
      simp only [Bool.and_eq_true, beq_iff_eq, hrs, hrp]
      exact fun hcc => hsp ⟨hcc.1.symm, hcc.2.symm⟩
    rw [if_neg hc, add_zero]
    exact hIH s' p'

/-! ## Evaluation lemmas for the transaction body -/

theorem movementTxn_stockin (storeId productId : Nat) (quantity : Int)
    (referenceId notes : Option String) (dst : Option Nat) (db : DB)
    (product : Product)
    (hp : db.products.find? (fun pr => pr.id == productId) = some product)
    (hs : db.stores.contains storeId = true) :
    movementTxn storeId productId quantity "STOCK_IN" referenceId notes dst db
      = .ok ({ db with
          inventory := setQty (getOrCreate db.inventory db.nextInventoryId
            storeId productId (some product.base_price)).inventory storeId
            productId ((getOrCreate db.inventory db.nextInventoryId storeId
            productId (some product.base_price)).row.quantity + quantity),
          ledger := db.ledger ++ [⟨db.nextMovementId, storeId, productId,
            quantity, "STOCK_IN", referenceId, notes⟩],
          nextMovementId := db.nextMovementId + 1,
          nextInventoryId := (getOrCreate db.inventory db.nextInventoryId
            storeId productId (some product.base_price)).nextInventoryId },
        ⟨db.nextMovementId, storeId, productId, quantity, "STOCK_IN",
          referenceId, notes⟩,
        (getOrCreate db.inventory db.nextInventoryId storeId productId
          (some product.base_price)).row.quantity + quantity) := by
  unfold movementTxn
  rw [hp]
  have hs' : storeId ∈ db.stores := by simpa using hs
  simp [hs']

theorem movementTxn_outgoing (storeId productId : Nat) (quantity : Int)
    (type : String) (referenceId notes : Option String) (dst : Option Nat)
    (db : DB) (product : Product)
    (ht : type = "SALE" ∨ type = "REMOVAL")
    (hp : db.products.find? (fun pr => pr.id == productId) = some product)
    (hs : db.stores.contains storeId = true)
    (hnlt : ¬((getOrCreate db.inventory db.nextInventoryId storeId productId
      (some product.base_price)).row.quantity < quantity)) :
    movementTxn storeId productId quantity type referenceId notes dst db
      = .ok ({ db with
          inventory := setQty (getOrCreate db.inventory db.nextInventoryId
            storeId productId (some product.base_price)).inventory storeId
            productId ((getOrCreate db.inventory db.nextInventoryId storeId
            productId (some product.base_price)).row.quantity - quantity),
          ledger := db.ledger ++ [⟨db.nextMovementId, storeId, productId,
            quantity, type, referenceId, notes⟩],
          nextMovementId := db.nextMovementId + 1,
          nextInventoryId := (getOrCreate db.inventory db.nextInventoryId
            storeId productId (some product.base_price)).nextInventoryId },
        ⟨db.nextMovementId, storeId, productId, quantity, type, referenceId,
          notes⟩,
        (getOrCreate db.inventory db.nextInventoryId storeId productId
          (some product.base_price)).row.quantity - quantity) := by
  have hs' : storeId ∈ db.stores := by simpa using hs
  rcases ht with rfl | rfl <;>
    · unfold movementTxn
      rw [hp]
      simp [hs', hnlt]

theorem movementTxn_insufficient (storeId productId : Nat) (quantity : Int)
    (type : String) (referenceId notes : Option String) (dst : Option Nat)
    (db : DB) (product : Product)
    (ht : type = "SALE" ∨ type = "REMOVAL" ∨ type = "TRANSFER")
    (hp : db.products.find? (fun pr => pr.id == productId) = some product)
    (hs : db.stores.contains storeId = true)
    (hd : type = "TRANSFER" → db.stores.contains (dst.getD 0) = true)
    (hlt : (getOrCreate db.inventory db.nextInventoryId storeId productId
      (some product.base_price)).row.quantity < quantity) :
    movementTxn storeId productId quantity type referenceId notes dst db
      = .error (.insufficientStock
          ((getOrCreate db.inventory db.nextInventoryId storeId productId
            (some product.base_price)).row.quantity) quantity) := by
  have hs' : storeId ∈ db.stores := by simpa using hs
  rcases ht with rfl | rfl | rfl
  · unfold movementTxn; rw [hp]; simp [hs', hlt]
  · unfold movementTxn; rw [hp]; simp [hs', hlt]
  · have hd' : dst.getD 0 ∈ db.stores := by simpa using hd rfl
    unfold movementTxn; rw [hp]; simp [hs', hd', hlt]

theorem movementTxn_transfer (storeId productId : Nat) (quantity : Int)
    (referenceId notes : Option String) (dst : Option Nat) (db : DB)
    (product : Product)
    (hp : db.products.find? (fun pr => pr.id == productId) = some product)
    (hs : db.stores.contains storeId = true)
    (hd : db.stores.contains (dst.getD 0) = true)
    (hnlt : ¬((getOrCreate db.inventory db.nextInventoryId storeId productId
      (some product.base_price)).row.quantity < quantity)) :
    movementTxn storeId productId quantity "TRANSFER" referenceId notes dst db
      = .ok ({ db with
          inventory := setQty
            (getOrCreate
              (setQty (getOrCreate db.inventory db.nextInventoryId storeId
                productId (some product.base_price)).inventory storeId
                productId ((getOrCreate db.inventory db.nextInventoryId
                  storeId productId (some product.base_price)).row.quantity
                  - quantity))
              (getOrCreate db.inventory db.nextInventoryId storeId productId
                (some product.base_price)).nextInventoryId
              (dst.getD 0) productId
              (some (jsOrInt (getOrCreate db.inventory db.nextInventoryId
                storeId productId (some product.base_price)).row.price
                product.base_price))).inventory
            (dst.getD 0) productId
            ((getOrCreate
              (setQty (getOrCreate db.inventory db.nextInventoryId storeId
                productId (some product.base_price)).inventory storeId
                productId ((getOrCreate db.inventory db.nextInventoryId
                  storeId productId (some product.base_price)).row.quantity
                  - quantity))
              (getOrCreate db.inventory db.nextInventoryId storeId productId
                (some product.base_price)).nextInventoryId
              (dst.getD 0) productId
              (some (jsOrInt (getOrCreate db.inventory db.nextInventoryId
                storeId productId (some product.base_price)).row.price
                product.base_price))).row.quantity + quantity),
          ledger := db.ledger
            ++ [⟨db.nextMovementId, storeId, productId, quantity, "TRANSFER",
                referenceId, notes⟩]
            ++ [⟨db.nextMovementId + 1, dst.getD 0, productId, quantity,
                "STOCK_IN",
                some (jsOrStr referenceId (toString db.nextMovementId)),
                some ("Transfer from Store #" ++ toString storeId ++ " - "
                  ++ jsOrStr notes "")⟩],
          nextMovementId := db.nextMovementId + 2,
          nextInventoryId := (getOrCreate
            (setQty (getOrCreate db.inventory db.nextInventoryId storeId
              productId (some product.base_price)).inventory storeId
              productId ((getOrCreate db.inventory db.nextInventoryId storeId
                productId (some product.base_price)).row.quantity - quantity))
            (getOrCreate db.inventory db.nextInventoryId storeId productId
              (some product.base_price)).nextInventoryId
            (dst.getD 0) productId
            (some (jsOrInt (getOrCreate db.inventory db.nextInventoryId
              storeId productId (some product.base_price)).row.price
              product.base_price))).nextInventoryId },
        ⟨db.nextMovementId, storeId, productId, quantity, "TRANSFER",
          referenceId, notes⟩,
        (getOrCreate db.inventory db.nextInventoryId storeId productId
          (some product.base_price)).row.quantity - quantity) := by
  unfold movementTxn
  rw [hp]
  have hs' : storeId ∈ db.stores := by simpa using hs
  have hd' : dst.getD 0 ∈ db.stores := by simpa using hd
  simp [hs', hd', hnlt]

theorem movementTxn_no_product (storeId productId : Nat) (quantity : Int)
    (type : String) (referenceId notes : Option String) (dst : Option Nat)
    (db : DB)
    (hp : db.products.find? (fun pr => pr.id == productId) = none) :
    movementTxn storeId productId quantity type referenceId notes dst db
      = .error (.notFound "Product not found") := by
  unfold movementTxn
  rw [hp]

theorem movementTxn_no_store (storeId productId : Nat) (quantity : Int)
    (type : String) (referenceId notes : Option String) (dst : Option Nat)
    (db : DB) (product : Product)
    (hp : db.products.find? (fun pr => pr.id == productId) = some product)
    (hs : db.stores.contains storeId = false) :
    movementTxn storeId productId quantity type referenceId notes dst db
      = .error (.notFound "Store not found") := by
  unfold movementTxn
  rw [hp]
  have hs' : ¬(storeId ∈ db.stores) := by simpa using hs
  simp [hs']

theorem movementTxn_no_dest (storeId productId : Nat) (quantity : Int)
    (referenceId notes : Option String) (dst : Option Nat) (db : DB)
    (product : Product)
    (hp : db.products.find? (fun pr => pr.id == productId) = some product)
    (hs : db.stores.contains storeId = true)
    (hd : db.stores.contains (dst.getD 0) = false) :
    movementTxn storeId productId quantity "TRANSFER" referenceId notes dst db
      = .error (.notFound "Destination store not found") := by
  unfold movementTxn
  rw [hp]
  have hs' : storeId ∈ db.stores := by simpa using hs
  have hd' : ¬(dst.getD 0 ∈ db.stores) := by simpa using hd
  simp [hs', hd']

/-- When every pre-transaction validation check passes,
`createStockMovement` is exactly the transaction body applied to the
extracted field values. -/
theorem createStockMovement_eq_txn (req : MovementRequest) (db : DB)
    (h1 : truthyNat req.storeId = true) (h2 : truthyNat req.productId = true)
    (h3 : truthyInt req.quantity = true) (h4 : truthyStr req.type = true)
    (h5 : validTypes.contains (req.type.getD "") = true)
    (h6 : req.type.getD "" = "TRANSFER" →
      truthyNat req.destinationStoreId = true)
    (h7 : ¬(req.quantity.getD 0 ≤ 0)) :
    createStockMovement req db
      = movementTxn (req.storeId.getD 0) (req.productId.getD 0)
          (req.quantity.getD 0) (req.type.getD "") req.referenceId req.notes
          req.destinationStoreId db := by
  have h5' : req.type.getD "" ∈ validTypes := by simpa using h5
  by_cases ht : req.type.getD "" = "TRANSFER"
  · simp [createStockMovement, h1, h2, h3, h4, h5', h6 ht, h7, ht]
    intro hcon
    exact absurd (by decide) hcon
  · have hne : (req.type.getD "" == "TRANSFER") = false := by
      simpa using ht
    simp [createStockMovement, h1, h2, h3, h4, h5', h7, hne]

/-- The transaction body preserves the invariant: whatever it commits
still satisfies ledger-equals-sum and non-negativity, for a positive
requested quantity and any of the four request types. -/
theorem movementTxn_preserves (storeId productId : Nat) (quantity : Int)
    (type : String) (referenceId notes : Option String)
    (destinationStoreId : Option Nat) (db db' : DB) (m : MovementRecord)
    (nq : Int) (hq : 0 < quantity)
    (ht : type = "STOCK_IN" ∨ type = "SALE" ∨ type = "REMOVAL"
      ∨ type = "TRANSFER")
    (h : movementTxn storeId productId quantity type referenceId notes
      destinationStoreId db = .ok (db', m, nq))
    (hdb : MovOk db) : MovOk db' := by
  cases hp : db.products.find? (fun pr => pr.id == productId) with
  | none =>
    rw [movementTxn_no_product _ _ _ _ _ _ _ _ hp] at h
    exact absurd h (by simp)
  | some product =>
  cases hs : db.stores.contains storeId with
  | false =>
    rw [movementTxn_no_store _ _ _ _ _ _ _ _ product hp hs] at h
    exact absurd h (by simp)
  | true =>
  have hIH1 : ∀ s' p',
      qtyOf (getOrCreate db.inventory db.nextInventoryId storeId productId
        (some product.base_price)).inventory s' p'
        = pairSum signedCode db.ledger s' p'
      ∧ 0 ≤ qtyOf (getOrCreate db.inventory db.nextInventoryId storeId
          productId (some product.base_price)).inventory s' p' := by
    intro s' p'
    rw [goc_qtyOf]
    exact hdb s' p'
  have hsome1 : (findRow (getOrCreate db.inventory db.nextInventoryId storeId
      productId (some product.base_price)).inventory storeId
      productId).isSome := by
    rw [goc_findRow]; rfl
  have hcur : (getOrCreate db.inventory db.nextInventoryId storeId productId
      (some product.base_price)).row.quantity
      = qtyOf db.inventory storeId productId := goc_row_qty _ _ _ _ _
  rcases ht with rfl | rfl | rfl | rfl
  · -- STOCK_IN
    rw [movementTxn_stockin _ _ _ _ _ _ _ product hp hs] at h
    obtain ⟨hdb', -⟩ := Prod.mk.inj (Except.ok.inj h)
    subst hdb'
    intro s' p'
    refine qty_sum_step _ _ hIH1 storeId productId hsome1 _ rfl rfl _ ?_ ?_ s' p'
    · show _ + quantity = _ + signedCode _
      rw [hcur, goc_qtyOf]
      rfl
    · rw [hcur]
      have := (hdb storeId productId).2
      omega
  · -- SALE
    by_cases hlt : (getOrCreate db.inventory db.nextInventoryId storeId
        productId (some product.base_price)).row.quantity < quantity
    · rw [movementTxn_insufficient _ _ _ _ _ _ _ _ product (by simp) hp hs
        (by simp) hlt] at h
      exact absurd h (by simp)
    · rw [movementTxn_outgoing _ _ _ _ _ _ _ _ product (Or.inl rfl) hp hs
        hlt] at h
      obtain ⟨hdb', -⟩ := Prod.mk.inj (Except.ok.inj h)
      subst hdb'
      intro s' p'
      refine qty_sum_step _ _ hIH1 storeId productId hsome1 _ rfl rfl _ ?_ ?_
        s' p'
      · show _ - quantity = _ + signedCode _
        rw [hcur, goc_qtyOf]
        show _ = _ + -quantity
        ring
      · rw [hcur] at hlt ⊢
        omega
  · -- REMOVAL
    by_cases hlt : (getOrCreate db.inventory db.nextInventoryId storeId
        productId (some product.base_price)).row.quantity < quantity
    · rw [movementTxn_insufficient _ _ _ _ _ _ _ _ product (by simp) hp hs
        (by simp) hlt] at h
      exact absurd h (by simp)
    · rw [movementTxn_outgoing _ _ _ _ _ _ _ _ product (Or.inr rfl) hp hs
        hlt] at h
      obtain ⟨hdb', -⟩ := Prod.mk.inj (Except.ok.inj h)
      subst hdb'
      intro s' p'
      refine qty_sum_step _ _ hIH1 storeId productId hsome1 _ rfl rfl _ ?_ ?_
        s' p'
      · show _ - quantity = _ + signedCode _
        rw [hcur, goc_qtyOf]
        show _ = _ + -quantity
        ring
      · rw [hcur] at hlt ⊢
        omega
  · -- TRANSFER
    cases hd : db.stores.contains (destinationStoreId.getD 0) with
    | false =>
      rw [movementTxn_no_dest _ _ _ _ _ _ _ product hp hs hd] at h
      exact absurd h (by simp)
    | true =>
    by_cases hlt : (getOrCreate db.inventory db.nextInventoryId storeId
        productId (some product.base_price)).row.quantity < quantity
    · rw [movementTxn_insufficient _ _ _ _ _ _ _ _ product (by simp) hp hs
        (fun _ => hd) hlt] at h
      exact absurd h (by simp)
    · rw [movementTxn_transfer _ _ _ _ _ _ _ product hp hs hd hlt] at h
      obtain ⟨hdb', -⟩ := Prod.mk.inj (Except.ok.inj h)
      subst hdb'
      intro s' p'
      have H1 := qty_sum_step _ _ hIH1 storeId productId hsome1
        ⟨db.nextMovementId, storeId, productId, quantity, "TRANSFER",
          referenceId, notes⟩
        rfl rfl
        ((getOrCreate db.inventory db.nextInventoryId storeId productId
          (some product.base_price)).row.quantity - quantity)
        (by
          show _ = _ + signedCode _
          rw [hcur, goc_qtyOf]
          show _ = _ + -quantity
          ring)
        (by rw [hcur] at hlt ⊢; omega)
      have hIH2 : ∀ s2 p2,
          qtyOf (getOrCreate
            (setQty (getOrCreate db.inventory db.nextInventoryId storeId
              productId (some product.base_price)).inventory storeId productId
              ((getOrCreate db.inventory db.nextInventoryId storeId productId
                (some product.base_price)).row.quantity - quantity))
            (getOrCreate db.inventory db.nextInventoryId storeId productId
              (some product.base_price)).nextInventoryId
            (destinationStoreId.getD 0) productId
            (some (jsOrInt (getOrCreate db.inventory db.nextInventoryId
              storeId productId (some product.base_price)).row.price
              product.base_price))).inventory s2 p2
            = pairSum signedCode (db.ledger ++ [⟨db.nextMovementId, storeId,
                productId, quantity, "TRANSFER", referenceId, notes⟩]) s2 p2
          ∧ 0 ≤ qtyOf (getOrCreate
              (setQty (getOrCreate db.inventory db.nextInventoryId storeId
                productId (some product.base_price)).inventory storeId
                productId ((getOrCreate db.inventory db.nextInventoryId
                  storeId productId (some product.base_price)).row.quantity
                  - quantity))
              (getOrCreate db.inventory db.nextInventoryId storeId productId
                (some product.base_price)).nextInventoryId
              (destinationStoreId.getD 0) productId
              (some (jsOrInt (getOrCreate db.inventory db.nextInventoryId
                storeId productId (some product.base_price)).row.price
                product.base_price))).inventory s2 p2 := by
        intro s2 p2
        rw [goc_qtyOf]
        exact H1 s2 p2
      refine qty_sum_step _ _ hIH2 (destinationStoreId.getD 0) productId
        (by rw [goc_findRow]; rfl) _ rfl rfl _ ?_ ?_ s' p'
      · show _ + quantity = _ + signedCode _
        rw [goc_row_qty, goc_qtyOf]
        rfl
      · rw [goc_row_qty]
        have := (H1 (destinationStoreId.getD 0) productId).2
        omega

/-- A committed `createStockMovement` preserves the invariant. -/
theorem createStockMovement_preserves (req : MovementRequest) (db db' : DB)
    (m : MovementRecord) (nq : Int)
    (h : createStockMovement req db = .ok (db', m, nq)) (hdb : MovOk db) :
    MovOk db' := by
  simp only [createStockMovement] at h
  by_cases h1 : (!truthyNat req.storeId || !truthyNat req.productId
      || !truthyInt req.quantity || !truthyStr req.type) = true
  · rw [if_pos h1] at h; exact absurd h (by simp)
  · rw [if_neg h1] at h
    by_cases h5 : (!(validTypes.contains (req.type.getD ""))) = true
    · rw [if_pos h5] at h; exact absurd h (by simp)
    · rw [if_neg h5] at h
      by_cases h6 : ((req.type.getD "" == "TRANSFER")
          && !truthyNat req.destinationStoreId) = true
      · rw [if_pos h6] at h; exact absurd h (by simp)
      · rw [if_neg h6] at h
        by_cases h7 : req.quantity.getD 0 ≤ 0
        · rw [if_pos h7] at h; exact absurd h (by simp)
        · rw [if_neg h7] at h
          refine movementTxn_preserves _ _ _ _ _ _ _ _ _ _ _ ?_ ?_ h hdb
          · omega
          · simp only [Bool.not_eq_true', Bool.not_eq_false] at h5
            simpa [validTypes] using h5

/-- The initial state satisfies the invariant. -/
theorem movOk_init (stores : List Nat) (products : List Product) :
    MovOk (DB.init stores products) := by
  intro s p
  exact ⟨rfl, le_refl 0⟩

/-- Folding any request list over an invariant-satisfying state keeps
the invariant. -/
theorem movOk_applyReqs (reqs : List MovementRequest) (db : DB)
    (hdb : MovOk db) : MovOk (applyReqs db reqs) := by
  induction reqs generalizing db with
  | nil => exact hdb
  | cons r t ih =>
    cases h : createStockMovement r db with
    | ok res =>
      obtain ⟨d', m, nq⟩ := res
      have step : applyReqs db (r :: t) = applyReqs d' t := by
        simp [applyReqs, h]
      rw [step]
      exact ih d' (createStockMovement_preserves r db d' m nq h hdb)
    | error e =>
      have step : applyReqs db (r :: t) = applyReqs db t := by
        simp [applyReqs, h]
      rw [step]
      exact ih db hdb

/-! ## Claims -/

/-- C1, counterexample: the claim's signing convention (`STOCK_IN` and
`TRANSFER_IN` positive; `SALE`, `REMOVAL`, `TRANSFER_OUT` negative,
nothing else signed) does not match the code's ledger. After a
committed `STOCK_IN` of 30 and a committed `TRANSFER` of 10 from store
1 to store 2 (three ledger records in total), store 1's aggregate is
20 but the claim's signed sum over its records is 30, because the
transfer's source leg is stored with type `TRANSFER`, which the
claim's convention does not count. -/
theorem C1_counterexample :
    exampleDB2.ledger.length = 3
    ∧ qtyOf exampleDB2.inventory 1 7 = 20
    ∧ pairSum signedSpec exampleDB2.ledger 1 7 = 30
    ∧ qtyOf exampleDB2.inventory 1 7 ≠ pairSum signedSpec exampleDB2.ledger 1 7 := by
  refine ⟨rfl, rfl, rfl, ?_⟩
  decide

/-- C1 (amended): for every (store, product) pair and every sequence
of committed movement operations starting from an initial state, the
aggregate's current quantity equals the signed sum of all ledger
records for that pair under the convention the code maintains —
`STOCK_IN` positive (including the destination leg of a transfer,
which the code records as `STOCK_IN`), `SALE`, `REMOVAL` and
`TRANSFER` (the type recorded for a transfer's source leg) negative —
and that quantity is never negative after any committed write. -/
theorem C1_amended_ledger_sum_invariant (stores : List Nat)
    (products : List Product) (reqs : List MovementRequest) (s p : Nat) :
    qtyOf (applyReqs (DB.init stores products) reqs).inventory s p
      = pairSum signedCode (applyReqs (DB.init stores products) reqs).ledger s p
    ∧ 0 ≤ qtyOf (applyReqs (DB.init stores products) reqs).inventory s p :=
  movOk_applyReqs reqs (DB.init stores products) (movOk_init stores products) s p

/-- C2, counterexample: the spec's Scenario D input (transfer 10 from
store 1 holding 30 to store 2 with no prior row, no caller reference
id). The transfer succeeds and the quantities come out as claimed
(20 and 10), but no ledger record of type `TRANSFER_OUT` or
`TRANSFER_IN` exists — the code writes `TRANSFER` and `STOCK_IN` — and
the two records do not share a reference id: the source record's
reference id is null while the destination's is the source movement's
generated id. -/
theorem C2_counterexample :
    (createStockMovement transferReq exampleDB1).isOk = true
    ∧ qtyOf exampleDB2.inventory 1 7 = 20
    ∧ qtyOf exampleDB2.inventory 2 7 = 10
    ∧ exampleDB2.ledger.all
        (fun r => r.type != "TRANSFER_OUT" && r.type != "TRANSFER_IN") = true
    ∧ exampleDB2.ledger.get? 1
        = some ⟨2, 1, 7, 10, "TRANSFER", none, none⟩
    ∧ exampleDB2.ledger.get? 2
        = some ⟨3, 2, 7, 10, "STOCK_IN", some "2",
            some "Transfer from Store #1 - "⟩ := by
  refine ⟨rfl, rfl, rfl, ?_, rfl, rfl⟩
  decide

/-- C2 (amended): for every TRANSFER request of quantity q from a
source store with quantity s ≥ q to a distinct destination store (with
or without a prior aggregate row), after the operation the source
aggregate equals s − q with a ledger record of type `TRANSFER`, and
the destination aggregate is increased by q with a ledger record of
type `STOCK_IN`; the destination record's reference id is the
caller-supplied one when present, and otherwise the source movement's
generated id (the source record itself carries only the
caller-supplied reference id, null when absent). -/
theorem C2_amended_transfer (db : DB) (s d p : Nat) (q : Int)
    (referenceId notes : Option String)
    (hs0 : s ≠ 0) (hp0 : p ≠ 0) (hd0 : d ≠ 0) (hsd : s ≠ d)
    (hsm : db.stores.contains s = true) (hdm : db.stores.contains d = true)
    (product : Product)
    (hpm : db.products.find? (fun pr => pr.id == p) = some product)
    (hq : 0 < q) (hle : q ≤ qtyOf db.inventory s p) :
    ∃ db' m nq,
      createStockMovement ⟨some s, some p, some q, some "TRANSFER",
        referenceId, notes, some d⟩ db = .ok (db', m, nq)
      ∧ qtyOf db'.inventory s p = qtyOf db.inventory s p - q
      ∧ qtyOf db'.inventory d p = qtyOf db.inventory d p + q
      ∧ db'.ledger = db.ledger
          ++ [⟨db.nextMovementId, s, p, q, "TRANSFER", referenceId, notes⟩]
          ++ [⟨db.nextMovementId + 1, d, p, q, "STOCK_IN",
              some (jsOrStr referenceId (toString db.nextMovementId)),
              some ("Transfer from Store #" ++ toString s ++ " - "
                ++ jsOrStr notes "")⟩] := by
  have hst : truthyNat (some s) = true := by simpa [truthyNat] using hs0
  have hpt : truthyNat (some p) = true := by simpa [truthyNat] using hp0
  have hqt : truthyInt (some q) = true := by
    simp only [truthyInt, bne_iff_ne]
    omega
  have heq := createStockMovement_eq_txn
    ⟨some s, some p, some q, some "TRANSFER", referenceId, notes, some d⟩ db
    hst hpt hqt rfl rfl (fun _ => by simpa [truthyNat] using hd0)
    (by simp only [Option.getD_some]; omega)
  have hnlt : ¬((getOrCreate db.inventory db.nextInventoryId s p
      (some product.base_price)).row.quantity < q) := by
    rw [goc_row_qty]
    omega
  have htx := movementTxn_transfer s p q referenceId notes (some d) db product
    hpm hsm (by simpa using hdm) hnlt
  simp only [Option.getD_some] at heq
  rw [heq, htx]
  simp only [Option.getD_some]
  refine ⟨_, _, _, rfl, ?_, ?_, rfl⟩
  · rw [qtyOf_setQty_other _ d p s p _ (fun hc => hsd hc.1),
      goc_qtyOf,
      qtyOf_setQty_self _ _ _ _ (by rw [goc_findRow]; rfl),
      goc_row_qty]
  · rw [qtyOf_setQty_self _ _ _ _ (by rw [goc_findRow]; rfl),
      goc_row_qty,
      qtyOf_setQty_other _ s p d p _ (fun hc => hsd hc.1.symm),
      goc_qtyOf]

/-- Witness for C2 (amended): the Scenario D numbers — transfer 10
units of product 7 from store 1 (holding 30) to store 2 (no row). -/
theorem C2_amended_transfer_witness :
    ∃ db' m nq,
      createStockMovement transferReq exampleDB1 = .ok (db', m, nq)
      ∧ qtyOf db'.inventory 1 7 = qtyOf exampleDB1.inventory 1 7 - 10
      ∧ qtyOf db'.inventory 2 7 = qtyOf exampleDB1.inventory 2 7 + 10
      ∧ db'.ledger = exampleDB1.ledger
          ++ [⟨exampleDB1.nextMovementId, 1, 7, 10, "TRANSFER", none, none⟩]
          ++ [⟨exampleDB1.nextMovementId + 1, 2, 7, 10, "STOCK_IN",
              some (jsOrStr none (toString exampleDB1.nextMovementId)),
              some ("Transfer from Store #" ++ toString 1 ++ " - "
                ++ jsOrStr none "")⟩] :=
  C2_amended_transfer exampleDB1 1 2 7 10 none none
    (by decide) (by decide) (by decide) (by decide) (by decide) (by decide)
    ⟨7, 100⟩ (by decide) (by decide) (by decide)

/-- C3: an outgoing movement (SALE, REMOVAL or TRANSFER) whose
requested quantity exceeds the current aggregate quantity fails with
the insufficient-stock error carrying the available and requested
quantities. The error result models `ROLLBACK`: the caller's state is
unchanged and no ledger record survives. -/
theorem C3_insufficient_stock (db : DB) (s p : Nat) (q : Int) (t : String)
    (referenceId notes : Option String) (dstOpt : Option Nat)
    (hs0 : s ≠ 0) (hp0 : p ≠ 0)
    (ht : t = "SALE" ∨ t = "REMOVAL" ∨ t = "TRANSFER") (hq : 0 < q)
    (hdt : t = "TRANSFER" → truthyNat dstOpt = true
      ∧ db.stores.contains (dstOpt.getD 0) = true)
    (hsm : db.stores.contains s = true)
    (product : Product)
    (hpm : db.products.find? (fun pr => pr.id == p) = some product)
    (hlt : qtyOf db.inventory s p < q) :
    createStockMovement ⟨some s, some p, some q, some t, referenceId, notes,
      dstOpt⟩ db
      = .error (.insufficientStock (qtyOf db.inventory s p) q) := by
  have hst : truthyNat (some s) = true := by simpa [truthyNat] using hs0
  have hpt : truthyNat (some p) = true := by simpa [truthyNat] using hp0
  have hqt : truthyInt (some q) = true := by
    simp only [truthyInt, bne_iff_ne]
    omega
  have htt : truthyStr (some t) = true := by
    rcases ht with rfl | rfl | rfl <;> rfl
  have h5 : validTypes.contains t = true := by
    rcases ht with rfl | rfl | rfl <;> decide
  have heq := createStockMovement_eq_txn
    ⟨some s, some p, some q, some t, referenceId, notes, dstOpt⟩ db
    hst hpt hqt htt h5 (fun hT => (hdt hT).1)
    (by simp only [Option.getD_some]; omega)
  simp only [Option.getD_some] at heq
  have hlt' : (getOrCreate db.inventory db.nextInventoryId s p
      (some product.base_price)).row.quantity < q := by
    rw [goc_row_qty]
    exact hlt
  rw [heq, movementTxn_insufficient s p q t referenceId notes dstOpt db
    product ht hpm hsm (fun hT => (hdt hT).2) hlt', goc_row_qty]

/-- Witness for C3: the spec's Scenario C — REMOVAL of 5 units from a
store holding 3 fails with available 3, requested 5. -/
theorem C3_insufficient_stock_witness :
    createStockMovement ⟨some 1, some 7, some 5, some "REMOVAL", none, none,
      none⟩ scenarioCDB
      = .error (.insufficientStock 3 5) :=
  C3_insufficient_stock scenarioCDB 1 7 5 "REMOVAL" none none none
    (by decide) (by decide) (by decide) (by decide) (by decide) (by decide)
    ⟨7, 100⟩ (by decide) (by decide)

/-- C4, counterexample: the code never compares the destination store
to the source store. A TRANSFER whose destinationStoreId equals its
storeId succeeds instead of failing as the claim requires. -/
theorem C4_counterexample :
    selfTransferReq.destinationStoreId = selfTransferReq.storeId
    ∧ (createStockMovement selfTransferReq exampleDB1).isOk = true := by
  refine ⟨rfl, ?_⟩
  decide

/-- C4 (amended): for every TRANSFER request the destinationStoreId is
required (a missing or zero id fails with a ValidationError before the
transaction opens) and must reference an existing store (otherwise the
transaction fails NotFound and rolls back, leaving no writes); the
code does not require the destination to differ from the source. -/
theorem C4_amended_destination_checks (db : DB) (s p : Nat) (q : Int)
    (referenceId notes : Option String)
    (hs0 : s ≠ 0) (hp0 : p ≠ 0) (hq : 0 < q) :
    (∀ dstOpt, truthyNat dstOpt = false →
      createStockMovement ⟨some s, some p, some q, some "TRANSFER",
        referenceId, notes, dstOpt⟩ db
        = .error (.validation "Destination store ID is required for transfers"))
    ∧ (∀ dstOpt product, truthyNat dstOpt = true →
        db.products.find? (fun pr => pr.id == p) = some product →
        db.stores.contains s = true →
        db.stores.contains (dstOpt.getD 0) = false →
        createStockMovement ⟨some s, some p, some q, some "TRANSFER",
          referenceId, notes, dstOpt⟩ db
          = .error (.notFound "Destination store not found")) := by
  have hst : truthyNat (some s) = true := by simpa [truthyNat] using hs0
  have hpt : truthyNat (some p) = true := by simpa [truthyNat] using hp0
  have hqt : truthyInt (some q) = true := by
    simp only [truthyInt, bne_iff_ne]
    omega
  constructor
  · intro dstOpt hdst
    have hmem : ("TRANSFER" : String) ∈ validTypes := by decide
    have htt : truthyStr (some "TRANSFER") = true := rfl
    simp [createStockMovement, hst, hpt, hqt, hdst, hmem, htt]
  · intro dstOpt product hdst hpm hsm hd
    have heq := createStockMovement_eq_txn
      ⟨some s, some p, some q, some "TRANSFER", referenceId, notes, dstOpt⟩
      db hst hpt hqt rfl rfl (fun _ => hdst)
      (by simp only [Option.getD_some]; omega)
    simp only [Option.getD_some] at heq
    rw [heq, movementTxn_no_dest s p q referenceId notes dstOpt db product
      hpm hsm hd]

/-- Witness for C4 (amended): a transfer with no destination fails
validation; a transfer to non-existent store 9 fails NotFound. -/
theorem C4_amended_destination_checks_witness :
    createStockMovement ⟨some 1, some 7, some 5, some "TRANSFER", none, none,
      none⟩ exampleDB1
      = .error (.validation "Destination store ID is required for transfers")
    ∧ createStockMovement ⟨some 1, some 7, some 5, some "TRANSFER", none,
      none, some 9⟩ exampleDB1
      = .error (.notFound "Destination store not found") :=
  ⟨(C4_amended_destination_checks exampleDB1 1 7 5 none none (by decide)
      (by decide) (by decide)).1 none rfl,
   (C4_amended_destination_checks exampleDB1 1 7 5 none none (by decide)
      (by decide) (by decide)).2 (some 9) ⟨7, 100⟩ rfl (by decide)
      (by decide) (by decide)⟩

/-- C5: a TRANSFER is atomic. In this embedding the
`BEGIN`/`COMMIT`/`ROLLBACK` discipline of the code (every error path
issues `ROLLBACK`, including the catch-all handler) is modelled by the
`Except` result: an error outcome leaves the caller's state untouched,
so no partial transfer is ever committed. The theorem states the
committed side: a successful TRANSFER appends exactly two ledger
records — the `TRANSFER` source leg and the `STOCK_IN` destination
leg, both for the requested quantity — and touches no aggregate other
than the source and destination (store, product) pairs. -/
theorem C5_transfer_atomicity (req : MovementRequest) (db : DB)
    (ht : req.type = some "TRANSFER") :
    (∃ e, createStockMovement req db = .error e)
    ∨ (∃ db' m nq r1 r2,
        createStockMovement req db = .ok (db', m, nq)
        ∧ db'.ledger = db.ledger ++ [r1] ++ [r2]
        ∧ r1.type = "TRANSFER" ∧ r1.store_id = req.storeId.getD 0
        ∧ r1.product_id = req.productId.getD 0
        ∧ r1.quantity = req.quantity.getD 0
        ∧ r2.type = "STOCK_IN"
        ∧ r2.store_id = req.destinationStoreId.getD 0
        ∧ r2.product_id = req.productId.getD 0
        ∧ r2.quantity = req.quantity.getD 0
        ∧ ∀ s2 p2, ¬(s2 = req.storeId.getD 0 ∧ p2 = req.productId.getD 0)
            → ¬(s2 = req.destinationStoreId.getD 0
                ∧ p2 = req.productId.getD 0)
            → qtyOf db'.inventory s2 p2 = qtyOf db.inventory s2 p2) := by
  cases hres : createStockMovement req db with
  | error e => exact Or.inl ⟨e, rfl⟩
  | ok res =>
  obtain ⟨db0, m0, nq0⟩ := res
  right
  have hT : req.type.getD "" = "TRANSFER" := by rw [ht]; rfl
  simp only [createStockMovement] at hres
  by_cases h1 : (!truthyNat req.storeId || !truthyNat req.productId
      || !truthyInt req.quantity || !truthyStr req.type) = true
  · rw [if_pos h1] at hres; exact absurd hres (by simp)
  rw [if_neg h1] at hres
  by_cases h5 : (!(validTypes.contains (req.type.getD ""))) = true
  · rw [if_pos h5] at hres; exact absurd hres (by simp)
  rw [if_neg h5] at hres
  by_cases h6 : ((req.type.getD "" == "TRANSFER")
      && !truthyNat req.destinationStoreId) = true
  · rw [if_pos h6] at hres; exact absurd hres (by simp)
  rw [if_neg h6] at hres
  by_cases h7 : req.quantity.getD 0 ≤ 0
  · rw [if_pos h7] at hres; exact absurd hres (by simp)
  rw [if_neg h7] at hres
  rw [hT] at hres
  cases hp : db.products.find?
      (fun pr => pr.id == req.productId.getD 0) with
  | none =>
    rw [movementTxn_no_product _ _ _ _ _ _ _ _ hp] at hres
    exact absurd hres (by simp)
  | some product =>
  cases hs : db.stores.contains (req.storeId.getD 0) with
  | false =>
    rw [movementTxn_no_store _ _ _ _ _ _ _ _ product hp hs] at hres
    exact absurd hres (by simp)
  | true =>
  cases hd : db.stores.contains (req.destinationStoreId.getD 0) with
  | false =>
    rw [movementTxn_no_dest _ _ _ _ _ _ _ product hp hs hd] at hres
    exact absurd hres (by simp)
  | true =>
  by_cases hlt : (getOrCreate db.inventory db.nextInventoryId
      (req.storeId.getD 0) (req.productId.getD 0)
      (some product.base_price)).row.quantity < req.quantity.getD 0
  · rw [movementTxn_insufficient _ _ _ _ _ _ _ _ product (by simp) hp hs
      (fun _ => hd) hlt] at hres
    exact absurd hres (by simp)
  · rw [movementTxn_transfer _ _ _ _ _ _ _ product hp hs hd hlt] at hres
    obtain ⟨hdb0, -⟩ := Prod.mk.inj (Except.ok.inj hres)
    refine ⟨db0, m0, nq0,
      ⟨db.nextMovementId, req.storeId.getD 0, req.productId.getD 0,
        req.quantity.getD 0, "TRANSFER", req.referenceId, req.notes⟩,
      ⟨db.nextMovementId + 1, req.destinationStoreId.getD 0,
        req.productId.getD 0, req.quantity.getD 0, "STOCK_IN",
        some (jsOrStr req.referenceId (toString db.nextMovementId)),
        some ("Transfer from Store #" ++ toString (req.storeId.getD 0)
          ++ " - " ++ jsOrStr req.notes "")⟩,
      rfl, ?_, rfl, rfl, rfl, rfl, rfl, rfl, rfl, rfl, ?_⟩
    · rw [← hdb0]
    · intro s2 p2 hns hnd
      rw [← hdb0]
      show qtyOf (setQty _ _ _ _) s2 p2 = _
      rw [qtyOf_setQty_other _ _ _ _ _ _ hnd, goc_qtyOf,
        qtyOf_setQty_other _ _ _ _ _ _ hns, goc_qtyOf]

/-- Witness for C5: the Scenario D transfer request on the stocked
state commits (so the right disjunct is realised on a concrete run),
and the same theorem applied to a transfer with an unknown destination
realises the error disjunct. -/
theorem C5_transfer_atomicity_witness :
    (∃ e, createStockMovement transferReq exampleDB1 = .error e)
    ∨ (∃ db2 m nq r1 r2,
        createStockMovement transferReq exampleDB1 = .ok (db2, m, nq)
        ∧ db2.ledger = exampleDB1.ledger ++ [r1] ++ [r2]
        ∧ r1.type = "TRANSFER" ∧ r1.store_id = transferReq.storeId.getD 0
        ∧ r1.product_id = transferReq.productId.getD 0
        ∧ r1.quantity = transferReq.quantity.getD 0
        ∧ r2.type = "STOCK_IN"
        ∧ r2.store_id = transferReq.destinationStoreId.getD 0
        ∧ r2.product_id = transferReq.productId.getD 0
        ∧ r2.quantity = transferReq.quantity.getD 0
        ∧ ∀ s2 p2, ¬(s2 = transferReq.storeId.getD 0
              ∧ p2 = transferReq.productId.getD 0)
            → ¬(s2 = transferReq.destinationStoreId.getD 0
                ∧ p2 = transferReq.productId.getD 0)
            → qtyOf db2.inventory s2 p2 = qtyOf exampleDB1.inventory s2 p2) :=
  C5_transfer_atomicity transferReq exampleDB1 rfl

/-- C6: for a (store, product) pair with current quantity s₀ (0 when
the row is created lazily), a STOCK_IN of n yields aggregate s₀ + n
and appends exactly one STOCK_IN ledger record of quantity n; a SALE
of n with n ≤ s₀ yields s₀ − n and appends exactly one SALE record of
quantity n. -/
theorem C6_stockin_and_sale (db : DB) (s p : Nat) (n : Int)
    (referenceId notes : Option String) (dstOpt : Option Nat)
    (hs0 : s ≠ 0) (hp0 : p ≠ 0) (hq : 0 < n)
    (hsm : db.stores.contains s = true)
    (product : Product)
    (hpm : db.products.find? (fun pr => pr.id == p) = some product) :
    (∃ db2 m,
      createStockMovement ⟨some s, some p, some n, some "STOCK_IN",
        referenceId, notes, dstOpt⟩ db
        = .ok (db2, m, qtyOf db.inventory s p + n)
      ∧ qtyOf db2.inventory s p = qtyOf db.inventory s p + n
      ∧ db2.ledger = db.ledger
          ++ [⟨db.nextMovementId, s, p, n, "STOCK_IN", referenceId, notes⟩])
    ∧ (n ≤ qtyOf db.inventory s p →
      ∃ db2 m,
      createStockMovement ⟨some s, some p, some n, some "SALE",
        referenceId, notes, dstOpt⟩ db
        = .ok (db2, m, qtyOf db.inventory s p - n)
      ∧ qtyOf db2.inventory s p = qtyOf db.inventory s p - n
      ∧ db2.ledger = db.ledger
          ++ [⟨db.nextMovementId, s, p, n, "SALE", referenceId, notes⟩]) := by
  have hst : truthyNat (some s) = true := by simpa [truthyNat] using hs0
  have hpt : truthyNat (some p) = true := by simpa [truthyNat] using hp0
  have hqt : truthyInt (some n) = true := by
    simp only [truthyInt, bne_iff_ne]
    omega
  constructor
  · have heq := createStockMovement_eq_txn
      ⟨some s, some p, some n, some "STOCK_IN", referenceId, notes, dstOpt⟩
      db hst hpt hqt rfl rfl (fun hc => absurd hc (by simp))
      (by simp only [Option.getD_some]; omega)
    simp only [Option.getD_some] at heq
    rw [heq, movementTxn_stockin s p n referenceId notes dstOpt db product
      hpm hsm, goc_row_qty]
    refine ⟨_, _, rfl, ?_, rfl⟩
    rw [qtyOf_setQty_self _ _ _ _ (by rw [goc_findRow]; rfl)]
  · intro hle
    have hnlt : ¬((getOrCreate db.inventory db.nextInventoryId s p
        (some product.base_price)).row.quantity < n) := by
      rw [goc_row_qty]
      omega
    have heq := createStockMovement_eq_txn
      ⟨some s, some p, some n, some "SALE", referenceId, notes, dstOpt⟩
      db hst hpt hqt rfl rfl (fun hc => absurd hc (by simp))
      (by simp only [Option.getD_some]; omega)
    simp only [Option.getD_some] at heq
    rw [heq, movementTxn_outgoing s p n "SALE" referenceId notes dstOpt db
      product (Or.inl rfl) hpm hsm hnlt, goc_row_qty]
    refine ⟨_, _, rfl, ?_, rfl⟩
    rw [qtyOf_setQty_self _ _ _ _ (by rw [goc_findRow]; rfl)]

/-- Witness for C6: on the stocked state (store 1 holds 30 of product
7), STOCK_IN of 5 yields 35 and SALE of 5 yields 25, each appending
one record. -/
theorem C6_stockin_and_sale_witness :
    (∃ db2 m,
      createStockMovement ⟨some 1, some 7, some 5, some "STOCK_IN", none,
        none, none⟩ exampleDB1
        = .ok (db2, m, qtyOf exampleDB1.inventory 1 7 + 5)
      ∧ qtyOf db2.inventory 1 7 = qtyOf exampleDB1.inventory 1 7 + 5
      ∧ db2.ledger = exampleDB1.ledger
          ++ [⟨exampleDB1.nextMovementId, 1, 7, 5, "STOCK_IN", none, none⟩])
    ∧ (5 ≤ qtyOf exampleDB1.inventory 1 7 →
      ∃ db2 m,
      createStockMovement ⟨some 1, some 7, some 5, some "SALE", none, none,
        none⟩ exampleDB1
        = .ok (db2, m, qtyOf exampleDB1.inventory 1 7 - 5)
      ∧ qtyOf db2.inventory 1 7 = qtyOf exampleDB1.inventory 1 7 - 5
      ∧ db2.ledger = exampleDB1.ledger
          ++ [⟨exampleDB1.nextMovementId, 1, 7, 5, "SALE", none, none⟩]) :=
  C6_stockin_and_sale exampleDB1 1 7 5 none none none (by decide) (by decide)
    (by decide) (by decide) ⟨7, 100⟩ (by decide)

/-- C7: a request with a missing or falsy required field, an unknown
movement type, a missing destination for a TRANSFER, or a non-positive
quantity fails with a ValidationError. All four checks run before
`BEGIN`, so no transaction is opened and no state is touched (the
error result carries no new state). -/
theorem C7_validation (req : MovementRequest) (db : DB)
    (h : truthyNat req.storeId = false ∨ truthyNat req.productId = false
      ∨ truthyInt req.quantity = false ∨ truthyStr req.type = false
      ∨ validTypes.contains (req.type.getD "") = false
      ∨ (req.type.getD "" = "TRANSFER"
          ∧ truthyNat req.destinationStoreId = false)
      ∨ req.quantity.getD 0 ≤ 0) :
    ∃ msg, createStockMovement req db = .error (.validation msg) := by
  simp only [createStockMovement]
  by_cases h1 : (!truthyNat req.storeId || !truthyNat req.productId
      || !truthyInt req.quantity || !truthyStr req.type) = true
  · rw [if_pos h1]
    exact ⟨_, rfl⟩
  · rw [if_neg h1]
    by_cases h5 : (!(validTypes.contains (req.type.getD ""))) = true
    · rw [if_pos h5]
      exact ⟨_, rfl⟩
    · rw [if_neg h5]
      by_cases h6 : ((req.type.getD "" == "TRANSFER")
          && !truthyNat req.destinationStoreId) = true
      · rw [if_pos h6]
        exact ⟨_, rfl⟩
      · rw [if_neg h6]
        by_cases h7 : req.quantity.getD 0 ≤ 0
        · rw [if_pos h7]
          exact ⟨_, rfl⟩
        · exfalso
          have ha : truthyNat req.storeId = true := by
            cases hx : truthyNat req.storeId
            · exact absurd (by rw [hx]; simp) h1
            · rfl
          have hb : truthyNat req.productId = true := by
            cases hx : truthyNat req.productId
            · exact absurd (by rw [hx]; simp) h1
            · rfl
          have hc : truthyInt req.quantity = true := by
            cases hx : truthyInt req.quantity
            · exact absurd (by rw [hx]; simp) h1
            · rfl
          have hd : truthyStr req.type = true := by
            cases hx : truthyStr req.type
            · exact absurd (by rw [hx]; simp) h1
            · rfl
          have h5' : validTypes.contains (req.type.getD "") = true := by
            cases hx : validTypes.contains (req.type.getD "")
            · exact absurd (by rw [hx]; rfl) h5
            · rfl
          rcases h with hh | hh | hh | hh | hh | ⟨hT, hD⟩ | hh
          · rw [ha] at hh; exact absurd hh (by decide)
          · rw [hb] at hh; exact absurd hh (by decide)
          · rw [hc] at hh; exact absurd hh (by decide)
          · rw [hd] at hh; exact absurd hh (by decide)
          · rw [h5'] at hh; exact absurd hh (by decide)
          · exact h6 (by rw [hT, hD]; rfl)
          · exact h7 hh

/-- Witness for C7: a REMOVAL request with quantity −5 fails with a
ValidationError. -/
theorem C7_validation_witness :
    ∃ msg, createStockMovement ⟨some 1, some 7, some (-5), some "REMOVAL",
      none, none, none⟩ exampleDB1 = .error (.validation msg) :=
  C7_validation ⟨some 1, some 7, some (-5), some "REMOVAL", none, none,
    none⟩ exampleDB1 (by decide)

/-- C8, counterexample: the claim says an adjustment that does not
change the quantity appends no ledger record. But for a request body
whose quantity is JSON null, the code passes NULL to
`COALESCE(NULL, quantity)` — leaving the row unchanged — while the
guard `quantity !== undefined && quantity !== currentInventory.quantity`
still holds (null is neither undefined nor a number), so it inserts a
movement record with `changeAmount = null - current = -current`: a
REMOVAL of the full current quantity. On the stocked state (row 1 at
30, one prior record summing to 30), the null adjustment keeps the
quantity at 30 yet grows the ledger to 2 records whose signed sum is
0, breaking the ledger-equals-sum invariant the claim says is
preserved. -/
theorem C8_counterexample :
    (updateInventory 1 (some none) none none exampleDB1).map
      (fun res => (qtyOf res.1.inventory 1 7, res.1.ledger.length,
        pairSum signedCode res.1.ledger 1 7))
      = .ok (30, 2, 0)
    ∧ qtyOf exampleDB1.inventory 1 7 = 30
    ∧ exampleDB1.ledger.length = 1
    ∧ pairSum signedCode exampleDB1.ledger 1 7 = 30 := by
  exact ⟨rfl, rfl, rfl, rfl⟩

/-- C8 (amended): for every manual adjustment whose body quantity is a
number that changes the row from oldQuantity to newQuantity, the
operation appends exactly one ledger record with the synthesized note,
typed `STOCK_IN` when newQuantity − oldQuantity is positive and
`REMOVAL` when it is negative, of quantity |newQuantity − oldQuantity|,
moving the pair's signed ledger sum by exactly the difference and so
preserving the ledger-equals-sum invariant; a numeric quantity equal
to the current one appends no record. A body quantity of JSON null,
however, leaves the row unchanged while still appending one movement
record computed from `null − current` (quantity |current|, REMOVAL for
a positive current quantity), so a null adjustment violates the
invariant. The hypotheses say that inventory row `iid` exists and is
the row the pair lookup finds (the schema's
UNIQUE(store_id, product_id) guarantees this). -/
theorem C8_manual_adjustment (db : DB) (iid : Nat) (q : Int)
    (price : Option Int) (userName : Option String) (row : InvRow)
    (hfind : db.inventory.find? (fun r => r.id == iid) = some row)
    (hpair : findRow db.inventory row.store_id row.product_id = some row) :
    (q ≠ row.quantity →
      ∃ db2 r2, updateInventory iid (some (some q)) price userName db
          = .ok (db2, r2)
        ∧ db2.ledger = db.ledger
            ++ [⟨db.nextMovementId, row.store_id, row.product_id,
                |q - row.quantity|,
                if q - row.quantity > 0 then "STOCK_IN" else "REMOVAL",
                none,
                some ("Manual inventory adjustment by "
                  ++ jsOrStr userName "system")⟩]
        ∧ qtyOf db2.inventory row.store_id row.product_id = q
        ∧ pairSum signedCode db2.ledger row.store_id row.product_id
            = pairSum signedCode db.ledger row.store_id row.product_id
              + (q - row.quantity))
    ∧ (∃ db2 r2, updateInventory iid (some (some row.quantity)) price
          userName db = .ok (db2, r2)
        ∧ db2.ledger = db.ledger)
    ∧ (∃ db2 r2, updateInventory iid (some none) price userName db
          = .ok (db2, r2)
        ∧ qtyOf db2.inventory row.store_id row.product_id = row.quantity
        ∧ db2.ledger = db.ledger
            ++ [⟨db.nextMovementId, row.store_id, row.product_id,
                |0 - row.quantity|,
                if 0 - row.quantity > 0 then "STOCK_IN" else "REMOVAL",
                none,
                some ("Manual inventory adjustment by "
                  ++ jsOrStr userName "system")⟩]) := by
  have hfind' : List.find? (fun r => r.id == iid) db.inventory = some row :=
    hfind
  have hid : (row.id == iid) = true := by
    simpa using List.find?_some hfind'
  refine ⟨?_, ?_, ?_⟩
  · intro hne
    have hbne : (q != row.quantity) = true := by simpa using hne
    simp only [updateInventory, hfind, Option.getD_some, hbne,
      eq_self_iff_true, if_true]
    refine ⟨_, _, rfl, rfl, ?_, ?_⟩
    · show qtyOf (db.inventory.map _) row.store_id row.product_id = q
      unfold qtyOf
      rw [findRow_map_id_update, hpair]
      simp only [Option.map_some', hid, if_true]
    · show pairSum signedCode (db.ledger ++ _) row.store_id row.product_id
        = _
      rw [pairSum_append, if_pos (by simp)]
      have hsc : signedCode ⟨db.nextMovementId, row.store_id,
          row.product_id, |q - row.quantity|,
          if q - row.quantity > 0 then "STOCK_IN" else "REMOVAL",
          none, some ("Manual inventory adjustment by "
            ++ jsOrStr userName "system")⟩ = q - row.quantity := by
        by_cases hpos : q - row.quantity > 0
        · simp [signedCode, if_pos hpos, abs_of_pos hpos]
          exact fun hcon => absurd hcon (by omega)
        · simp [signedCode, if_neg hpos,
            abs_of_nonpos (by omega : q - row.quantity ≤ 0)]
          rw [if_neg (by omega), if_pos (Or.inl (Or.inr (by omega)))]
      rw [hsc]
  · simp only [updateInventory, hfind, Option.getD_some]
    rw [if_neg (by simp)]
    exact ⟨_, _, rfl, rfl⟩
  · simp only [updateInventory, hfind, Option.getD_none,
      eq_self_iff_true, if_true]
    refine ⟨_, _, rfl, ?_, rfl⟩
    show qtyOf (db.inventory.map _) row.store_id row.product_id
      = row.quantity
    unfold qtyOf
    rw [findRow_map_id_update, hpair]
    simp only [Option.map_some', hid, if_true]

/-- Witness for C8 (amended): on the stocked state (row id 1 holds 30
of product 7 in store 1), setting the quantity to −3 appends one
REMOVAL record of quantity 33 with the synthesized note and moves the
pair's signed sum by −33. -/
theorem C8_manual_adjustment_witness :
    ∃ db2 r2, updateInventory 1 (some (some (-3))) none none exampleDB1
        = .ok (db2, r2)
      ∧ db2.ledger = exampleDB1.ledger
          ++ [⟨exampleDB1.nextMovementId, 1, 7, |(-3 : Int) - 30|,
              if (-3 : Int) - 30 > 0 then "STOCK_IN" else "REMOVAL",
              none,
              some ("Manual inventory adjustment by "
                ++ jsOrStr none "system")⟩]
      ∧ qtyOf db2.inventory 1 7 = -3
      ∧ pairSum signedCode db2.ledger 1 7
          = pairSum signedCode exampleDB1.ledger 1 7 + ((-3) - 30) :=
  (C8_manual_adjustment exampleDB1 1 (-3) none none ⟨1, 1, 7, 30, some 100⟩
    (by decide) (by decide)).1 (by decide)

/-- C10: `updateInventory` performs no lower-bound check: for any
existing inventory row and any requested quantity — negative values
included — the update succeeds and sets the row's quantity to exactly
that value, so a manual adjustment can drive an aggregate below
zero. -/
theorem C10_no_lower_bound (db : DB) (iid : Nat) (q : Int)
    (price : Option Int) (userName : Option String) (row : InvRow)
    (hfind : db.inventory.find? (fun r => r.id == iid) = some row) :
    ∃ db2 r2, updateInventory iid (some (some q)) price userName db
        = .ok (db2, r2)
      ∧ r2.quantity = q
      ∧ (db2.inventory.find? (fun r => r.id == iid)).map
          (fun r => r.quantity) = some q := by
  have hfind' : List.find? (fun r => r.id == iid) db.inventory = some row :=
    hfind
  have hid : (row.id == iid) = true := by
    simpa using List.find?_some hfind'
  simp only [updateInventory, hfind, Option.getD_some]
  by_cases hne : (q != row.quantity) = true
  · rw [if_pos hne]
    refine ⟨_, _, rfl, rfl, ?_⟩
    show ((db.inventory.map _).find? (fun r : InvRow => r.id == iid)).map
      (fun r : InvRow => r.quantity) = some q
    rw [find?_id_map_id_update, hfind]
    simp only [Option.map_some', hid, if_true]
  · rw [if_neg hne]
    have hqe : q = row.quantity := by simpa using hne
    refine ⟨_, _, rfl, rfl, ?_⟩
    show ((db.inventory.map _).find? (fun r : InvRow => r.id == iid)).map
      (fun r : InvRow => r.quantity) = some q
    rw [find?_id_map_id_update, hfind]
    simp only [Option.map_some', hid, if_true]

/-- Witness for C10: setting row 1 (holding 30) to the negative value
−3 succeeds and stores exactly −3. -/
theorem C10_no_lower_bound_witness :
    ∃ db2 r2, updateInventory 1 (some (some (-3))) none none exampleDB1
        = .ok (db2, r2)
      ∧ r2.quantity = -3
      ∧ (db2.inventory.find? (fun r => r.id == 1)).map
          (fun r => r.quantity) = some (-3) :=
  C10_no_lower_bound exampleDB1 1 (-3) none none ⟨1, 1, 7, 30, some 100⟩
    (by decide)

end Inventory
